import Mathlib

/-!
Verification of the buildbot latent-buildslave provisioning layer
(`master/buildbot/buildslave/drmaabot.py`, `htcondor.py`, `gridengine.py`)
against its natural-language specification.

Python strings are modelled as lists of characters (`Str`); Python dicts
holding the submit-description directives are modelled as association
lists kept in the order the source writes the entries (Python 2 dicts
iterate in an arbitrary but fixed order; the source-listing order is the
deterministic reading used here, and no theorem below depends on an
intra-mapping order except where explicitly stated).  Fallible scheduler
control calls are modelled by an explicit outcome parameter (the
environment chooses how `drmaa_session.control` behaves) and `Except`
results; `self.job_id = None` style mutation is modelled by explicit
state passing.
-/

/-- A Python string, modelled as its list of characters. -/
abbrev Str := List Char

/-- Conversion from a Lean string literal to the `Str` model. -/
def str (s : String) : Str := s.data

/-! ## drmaabot.py — the DRMAA provisioning controller -/

/-- How the external scheduler responds to the one termination control
call `drmaa_session.control(job_id, TERMINATE)` in
`DRMAALatentBuildSlave._terminate_drmaa_job`:
it returns normally, raises `drmaa.errors.InvalidJobException`, or raises
any other exception. -/
inductive ControlOutcome
  | ok
  | invalidJob
  | otherError
deriving DecidableEq

/-- The mutable per-instance state of a `DRMAALatentBuildSlave` that the
lifecycle operations touch: `job_id` (None until a job is submitted). -/
structure DRMAAState where
  job_id : Option Str
deriving DecidableEq

/-- `DRMAALatentBuildSlave._start_instance`: submits the job template via
`runJob`, stores the returned job identifier and returns `True`.  `jid` is
the identifier the scheduler returns. -/
def _start_instance (s : DRMAAState) (jid : Str) : DRMAAState × Bool :=
  ({ s with job_id := some jid }, true)

/-- `DRMAALatentBuildSlave._terminate_drmaa_job`: issues the TERMINATE
control call; on `InvalidJobException` it logs and returns normally; any
other exception is logged and re-raised (`Except.error ()`). -/
def _terminate_drmaa_job (o : ControlOutcome) : Except Unit Unit :=
  match o with
  | .ok => .ok ()
  | .invalidJob => .ok ()
  | .otherError => .error ()

/-- `DRMAALatentBuildSlave._stop_instance`: runs `_terminate_drmaa_job()`
and then `self.job_id = None`.  When `_terminate_drmaa_job` re-raises, the
exception propagates and the assignment `self.job_id = None` on the next
line never runs, so the state is returned unchanged. -/
def _stop_instance (s : DRMAAState) (o : ControlOutcome) :
    DRMAAState × Except Unit Unit :=
  match _terminate_drmaa_job o with
  | .ok _ => ({ s with job_id := none }, .ok ())
  | .error e => (s, .error e)

/-- What one call of `DRMAALatentBuildSlave.stop_instance` produces: the
instance state afterwards, the result surfaced to the caller, and whether
the scheduler was contacted at all. -/
structure StopResult where
  state : DRMAAState
  result : Except Unit Unit
  contacted_scheduler : Bool

/-- `DRMAALatentBuildSlave.stop_instance`: if `self.job_id is None` it
returns `defer.succeed(None)` at once without any scheduler call;
otherwise it defers `_stop_instance` to a thread (the control call is
made, with outcome `o`). -/
def stop_instance (s : DRMAAState) (o : ControlOutcome) : StopResult :=
  match s.job_id with
  | none => ⟨s, .ok (), false⟩
  | some _ =>
    let r := _stop_instance s o
    ⟨r.1, r.2, true⟩

/-! ## drmaabot.py — the shared DRMAA session -/

/-- The process-wide session bookkeeping of `DRMAALatentBuildSlave`:
the class attribute `_drmaa_session` (a handle, modelled as a number),
the recorded contact string, and how many underlying scheduler
connections (`drmaa.Session(...)` constructions) have been made. -/
structure SessionState where
  _drmaa_session : Option Nat
  drmaa_session_contact : Option Str
  created : Nat
deriving DecidableEq

/-- `DRMAALatentBuildSlave._get_persistent_drmaa_session`, run without
interleaving: if the class attribute holds no session, construct one —
reattached to the recorded contact string when one exists, else fresh,
recording the new session's contact string — store it and return it.
Constructing a `drmaa.Session` is what creates a connection, so `created`
grows by one exactly then.  The fresh handle is numbered by `created`. -/
def _get_persistent_drmaa_session (st : SessionState) : SessionState × Nat :=
  match st._drmaa_session with
  | some h => (st, h)
  | none =>
    let h := st.created
    ({ _drmaa_session := some h,
       drmaa_session_contact :=
         some (st.drmaa_session_contact.getD (str "drmaa-contact")),
       created := st.created + 1 }, h)

/-! ## htcondor.py — the pool-variant submit-description render -/

/-- The keyword arguments of `HTCondorLatentBuildSlave.__init__` that
`_setup_htcondor_template` reads: a kwarg present in the call overrides
the matching `submit_description_rw` default (the `for k,v in
kwargs.iteritems()` update loop), and `extra_submit_description` is the
free-form block appended between the two dictionaries.  `none` = the
kwarg was not supplied. -/
structure HTCondorKwargs where
  accounting_group : Option Str := none
  accounting_group_user : Option Str := none
  request_buildslave : Option Str := none
  request_cpu : Option Str := none
  request_disk : Option Str := none
  request_memory : Option Str := none
  extra_submit_description : Option Str := none

/-- The `submit_description_rw` dictionary after the kwargs update loop:
overridable directives with their built-in defaults (`None` for the
accounting and machine-resource entries; cpu 1, disk 2097152 KB, memory
2048 MB), each replaced by `str(v)` when the kwarg was supplied.  Listed
in the source's order. -/
def submit_description_rw (kw : HTCondorKwargs) : List (Str × Option Str) :=
  [ (str "accounting_group", kw.accounting_group),
    (str "accounting_group_user", kw.accounting_group_user),
    (str "request_buildslave", kw.request_buildslave),
    (str "request_cpu", some (kw.request_cpu.getD (str "1"))),
    (str "request_disk", some (kw.request_disk.getD (str "2097152"))),
    (str "request_memory", some (kw.request_memory.getD (str "2048"))) ]

/-- `_htcondor_env_value`: double every embedded double quote, double
every embedded single quote, and wrap the result in single quotes.
`dupChar c` is Python's `value.replace(c, c+c)`. -/
def dupChar (c : Char) : Str → Str
  | [] => []
  | x :: xs => if x = c then c :: c :: dupChar c xs else x :: dupChar c xs

/-- The single-quote character. -/
def squote : Char := '\''

/-- The double-quote character. -/
def dquote : Char := '"'

/-- `HTCondorLatentBuildSlave._htcondor_env_value` from the source:
`value.replace('"', '""')`, then `value.replace("'", "''")`, then
`"'" + value + "'"`. -/
def _htcondor_env_value (value : Str) : Str :=
  squote :: dupChar squote (dupChar dquote value) ++ [squote]

/-- The `periodic_remove` expression of `submit_description_ro`, built
from `self.missing_timeout` exactly as the source concatenates it
(`120 if self.missing_timeout<120 else self.missing_timeout`). -/
def periodic_remove_expr (missing_timeout : Nat) : Str :=
  str "(JobStatus == 5 || (JobStatus == 1 &&" ++ str "CurrentTime - QDate > "
    ++ str (toString (if missing_timeout < 120 then 120 else missing_timeout))
    ++ str "))"

/-- The `submit_description_ro` dictionary: the fixed, non-overridable
directives, listed in the source's order. -/
def submit_description_ro (slavename password : Str) (missing_timeout : Nat) :
    List (Str × Str) :=
  [ (str "arguments", slavename),
    (str "+BuildslaveName", slavename),
    (str "+JobDescription", slavename),
    (str "environment", str "SLAVE_PASSWORD=" ++ _htcondor_env_value password),
    (str "+BuildslaveJob", str "TRUE"),
    (str "+JobMaxVacateTime", str "60"),
    (str "getenv", str "TRUE"),
    (str "kill_sig", str "SIGHUP"),
    (str "want_graceful_removal", str "TRUE"),
    (str "transfer_executable", str "TRUE"),
    (str "periodic_remove", periodic_remove_expr missing_timeout) ]

/-- One `key=value` line of the generated submit description
(`native_spec += k + "=" + v + "\n"`). -/
def renderLine (k v : Str) : Str := k ++ str "=" ++ v ++ str "\n"

/-- The `submit_description_rw` emission loop: a `k=v` line per entry
whose value is not `None`; `None` entries are skipped silently. -/
def renderRW : List (Str × Option Str) → Str
  | [] => []
  | (_, none) :: rest => renderRW rest
  | (k, some v) :: rest => renderLine k v ++ renderRW rest

/-- The `submit_description_ro` emission loop: a `k=v` line per entry,
unconditionally. -/
def renderRO : List (Str × Str) → Str
  | [] => []
  | (k, v) :: rest => renderLine k v ++ renderRO rest

/-- The `extra_submit_description` block: appended verbatim (plus a
newline) when the kwarg was supplied, nothing otherwise (the
`try: kwargs['extra_submit_description'] / except: pass` test). -/
def extraBlock (kw : HTCondorKwargs) : Str :=
  match kw.extra_submit_description with
  | none => []
  | some e => e ++ str "\n"

/-- `HTCondorLatentBuildSlave._setup_htcondor_template`: the overridable
`submit_description_rw` lines first, then the extra-directives block,
then the fixed `submit_description_ro` lines last. -/
def _setup_htcondor_template (slavename password : Str) (missing_timeout : Nat)
    (kw : HTCondorKwargs) : Str :=
  renderRW (submit_description_rw kw)
    ++ extraBlock kw
    ++ renderRO (submit_description_ro slavename password missing_timeout)

/-! ## gridengine.py — the queue-variant render -/

/-- The closed set of option names of `grid_option_dictionary` (the only
keys `job_options` ever holds: the two defaults plus the generated
`set_job_*` setters, one per dictionary entry). -/
inductive GridOption
  | queue
  | name
  | shell
  | env
deriving DecidableEq

/-- `grid_option_dictionary`: option name → scheduler directive token. -/
def grid_option_token : GridOption → Str
  | .queue => str "-q"
  | .name => str "-N"
  | .shell => str "-S"
  | .env => str "-v"

/-- The `job_options` default of `GridEngineLatentBuildSlave.__init__`. -/
def default_job_options : List (GridOption × Str) :=
  [ (.queue, str "all.q"), (.name, str "BuildSlave") ]

/-- The `job_resources` default of `GridEngineLatentBuildSlave.__init__`. -/
def default_job_resources : List (Str × Str) :=
  [ (str "arch", str "*") ]

/-- The option loop of `GridEngineLatentBuildSlave._start_instance`:
`native_specification_string += option_arg + " " + option_value + " "`
per `job_options` entry. -/
def grid_render_options : List (GridOption × Str) → Str
  | [] => []
  | (o, v) :: rest =>
    grid_option_token o ++ str " " ++ v ++ str " " ++ grid_render_options rest

/-- The resource loop of `_start_instance`: starting from accumulator
`acc`, per entry first `+= ","` when the accumulator is non-empty, then
`+= res_name + "=" + res_value`. -/
def grid_resource_string : List (Str × Str) → Str → Str
  | [], acc => acc
  | (n, v) :: rest, acc =>
    grid_resource_string rest
      ((if acc = [] then acc else acc ++ str ",") ++ n ++ str "=" ++ v)

/-- `GridEngineLatentBuildSlave._start_instance`'s native-specification
text: the option tokens first, then — only when the resource string is
non-empty — `"-l "` and the resource string last. -/
def grid_native_spec (opts : List (GridOption × Str))
    (res : List (Str × Str)) : Str :=
  let rspec := grid_resource_string res []
  grid_render_options opts ++ (if rspec = [] then [] else str "-l " ++ rspec)

/-- Modelled from the spec's words for the C8 comparison: "for each
overridable option ... append `<directive-token> <value> `. Then, if any
resource entries exist, append a resource clause listing `name=value`
pairs joined by commas, prefixed by the resource-request directive."
`joinWith` is the comma join. -/
def joinWith (sep : Str) : List Str → Str
  | [] => []
  | [x] => x
  | x :: y :: rest => x ++ sep ++ joinWith sep (y :: rest)

/-- Modelled from the spec's words (see `joinWith`): the queue-variant
render as §4.3 of the spec states it. -/
def grid_native_spec_spec (opts : List (GridOption × Str))
    (res : List (Str × Str)) : Str :=
  (opts.map fun p => grid_option_token p.1 ++ str " " ++ p.2 ++ str " ").flatten
    ++ if res = [] then []
       else str "-l " ++ joinWith (str ",") (res.map fun p => p.1 ++ str "=" ++ p.2)

/-! ## The job template and the two variants' start paths (C9) -/

/-- The per-instance data of an `HTCondorLatentBuildSlave` that the
submission path reads: the constructor arguments kept on `self` and the
job template's two fields.  `__init__` sets `remoteCommand` from
`slave_start_cmd` (in `DRMAALatentBuildSlave.__init__`) and then—at
construction time—sets `nativeSpecification` from
`_setup_htcondor_template`. -/
structure HTCondorSlave where
  slavename : Str
  password : Str
  missing_timeout : Nat
  kwargs : HTCondorKwargs
  template_remoteCommand : Str
  template_nativeSpecification : Str
  job_id : Option Str

/-- `HTCondorLatentBuildSlave.__init__`. -/
def HTCondorSlave.init (slave_start_cmd sn pw : Str) (mt : Nat)
    (kw : HTCondorKwargs) : HTCondorSlave :=
  { slavename := sn, password := pw, missing_timeout := mt, kwargs := kw,
    template_remoteCommand := slave_start_cmd,
    template_nativeSpecification := _setup_htcondor_template sn pw mt kw,
    job_id := none }

/-- `HTCondorLatentBuildSlave._start_instance`: delegates straight to
`DRMAALatentBuildSlave._start_instance`, which submits `self.job_template`
as stored.  Returns the new state and the `nativeSpecification` text that
went to the scheduler. -/
def HTCondorSlave.start_instance (s : HTCondorSlave) (jid : Str) :
    HTCondorSlave × Str :=
  ({ s with job_id := some jid }, s.template_nativeSpecification)

/-- The per-instance data of a `GridEngineLatentBuildSlave` the
submission path reads. -/
structure GridEngineSlave where
  job_options : List (GridOption × Str)
  job_resources : List (Str × Str)
  template_remoteCommand : Str
  template_nativeSpecification : Str
  job_id : Option Str

/-- `GridEngineLatentBuildSlave.__init__`: the option and resource
defaults, then `DRMAALatentBuildSlave.__init__` sets `remoteCommand`
on the blank template (whose `nativeSpecification` is still empty). -/
def GridEngineSlave.init (buildslave_setup_command : Str) : GridEngineSlave :=
  { job_options := default_job_options,
    job_resources := default_job_resources,
    template_remoteCommand := buildslave_setup_command,
    template_nativeSpecification := [],
    job_id := none }

/-- `GridEngineLatentBuildSlave._start_instance`: rebuilds the
native-specification text from the options and resources current at this
call, stores it on the template, and submits the template. -/
def GridEngineSlave.start_instance (s : GridEngineSlave) (jid : Str) :
    GridEngineSlave × Str :=
  let spec := grid_native_spec s.job_options s.job_resources
  ({ s with template_nativeSpecification := spec, job_id := some jid }, spec)

/-! ## The unsynchronized first-access race (C10)

`_get_persistent_drmaa_session` has no lock: `if not
DRMAALatentBuildSlave._drmaa_session:` (one read of the class attribute)
and the create-and-assign that follows are separate steps, and
`start_instance`/`stop_instance` run on worker threads.  The model gives
each of two threads those two atomic steps and interleaves them under an
explicit schedule. -/

/-- One thread's progress through `_get_persistent_drmaa_session`'s body:
whether it has executed the `if not ..._drmaa_session:` read (and what it
saw), and whether it has finished the call. -/
structure ThreadLocal where
  checked : Bool := false
  saw : Option Nat := none
  finished : Bool := false
deriving DecidableEq

/-- The shared data of the race model: the class attribute
`_drmaa_session` and the count of connections created so far. -/
structure RaceShared where
  session : Option Nat := none
  created : Nat := 0
deriving DecidableEq

/-- One atomic step of one thread: first the read of the class
attribute; then, if the read saw no session, the construction of a
`drmaa.Session` (one new connection) and the assignment to the class
attribute; a thread that saw a session finishes without creating one. -/
def threadStep (g : RaceShared) (t : ThreadLocal) : RaceShared × ThreadLocal :=
  if !t.checked then
    (g, { t with checked := true, saw := g.session })
  else if !t.finished then
    match t.saw with
    | some _ => (g, { t with finished := true })
    | none =>
      ({ session := some g.created, created := g.created + 1 },
       { t with finished := true })
  else (g, t)

/-- Run two threads through `_get_persistent_drmaa_session` under a
schedule: `true` = thread 1 takes its next step, `false` = thread 2. -/
def raceRun (sched : List Bool) : RaceShared × ThreadLocal × ThreadLocal :=
  sched.foldl
    (fun st b =>
      if b then
        let r := threadStep st.1 st.2.1
        (r.1, r.2, st.2.2)
      else
        let r := threadStep st.1 st.2.2
        (r.1, st.2.1, r.2))
    ({}, {}, {})

/-! ## The dialect unescape (C7) and the end-to-end scenario (C6) -/

/-- The inverse of `dupChar c`: Python's `value.replace(c+c, c)`,
replacing non-overlapping doubled occurrences left to right. -/
def undupChar (c : Char) : Str → Str
  | [] => []
  | [x] => [x]
  | x :: y :: rest =>
    if x = c ∧ y = c then c :: undupChar c rest
    else x :: undupChar c (y :: rest)

/-- The dialect-specific unescape of an `environment` value token: strip
the outer single quotes, undouble the doubled single quotes, undouble the
doubled double quotes. -/
def unescape_env_value (t : Str) : Str :=
  undupChar dquote (undupChar squote ((t.drop 1).dropLast))

/-- The spec's end-to-end scenario: a pool-variant worker with
missing-timeout 30, cpu default, no accounting group; concrete worker
name `slave-1` and password `pw`. -/
def scenario_render : Str :=
  _setup_htcondor_template (str "slave-1") (str "pw") 30 {}

/-- The environment-secret line of the end-to-end scenario. -/
def scenario_env_line : Str :=
  renderLine (str "environment")
    (str "SLAVE_PASSWORD=" ++ _htcondor_env_value (str "pw"))

/-! ## Helper lemmas -/

theorem dupChar_eq_nil_iff (c : Char) (s : Str) : dupChar c s = [] ↔ s = [] := by
  cases s with
  | nil => simp [dupChar]
  | cons x xs =>
    rw [dupChar]
    split <;> simp

theorem undupChar_dupChar (c : Char) (s : Str) :
    undupChar c (dupChar c s) = s := by
  induction s with
  | nil => rfl
  | cons x xs ih =>
    by_cases hx : x = c
    · subst hx
      rw [show dupChar x (x :: xs) = x :: x :: dupChar x xs from by
        rw [dupChar]; simp]
      rw [show undupChar x (x :: x :: dupChar x xs) = x :: undupChar x (dupChar x xs) from by
        rw [undupChar]; simp]
      rw [ih]
    · rw [show dupChar c (x :: xs) = x :: dupChar c xs from by
        rw [dupChar]; simp [hx]]
      rcases hd : dupChar c xs with _ | ⟨y, t⟩
      · have hxs : xs = [] := (dupChar_eq_nil_iff c xs).mp hd
        subst hxs
        rfl
      · rw [show undupChar c (x :: y :: t) = x :: undupChar c (y :: t) from by
          rw [undupChar]; simp [hx]]
        rw [← hd, ih]

theorem dupChar_count_self (c : Char) (s : Str) :
    (dupChar c s).count c = 2 * s.count c := by
  induction s with
  | nil => simp [dupChar]
  | cons x xs ih =>
    by_cases hx : x = c <;>
      simp [dupChar, hx, List.count_cons, ih] <;> omega

theorem dupChar_count_other (c d : Char) (h : d ≠ c) (s : Str) :
    (dupChar c s).count d = s.count d := by
  induction s with
  | nil => simp [dupChar]
  | cons x xs ih =>
    by_cases hx : x = c <;>
      simp [dupChar, hx, List.count_cons, ih, h]

theorem squote_ne_dquote : squote ≠ dquote := by decide

/-- C7: the escaping function doubles every embedded double quote and
every embedded single quote and wraps the result in single quotes, and
the dialect unescape (strip the outer single quotes, undouble the doubled
quotes) recovers the original string, for every input string. -/
theorem secret_escaping_roundtrip :
    (∀ s : Str, unescape_env_value (_htcondor_env_value s) = s) ∧
    (∀ s : Str, _htcondor_env_value s =
      [squote] ++ dupChar squote (dupChar dquote s) ++ [squote]) ∧
    (∀ s : Str, (_htcondor_env_value s).count dquote = 2 * s.count dquote) ∧
    (∀ s : Str, (_htcondor_env_value s).count squote = 2 * s.count squote + 2) := by
  refine ⟨?_, ?_, ?_, ?_⟩
  · intro s
    rw [unescape_env_value, _htcondor_env_value]
    rw [show ((squote :: dupChar squote (dupChar dquote s) ++ [squote]).drop 1).dropLast
        = dupChar squote (dupChar dquote s) from by simp]
    rw [undupChar_dupChar, undupChar_dupChar]
  · intro s
    rfl
  · intro s
    have h1 := dupChar_count_other squote dquote (Ne.symm squote_ne_dquote)
      (dupChar dquote s)
    have h2 := dupChar_count_self dquote s
    rw [_htcondor_env_value]
    simp [List.count_append, List.count_cons, Ne.symm squote_ne_dquote, h1, h2]
  · intro s
    have h1 := dupChar_count_self squote (dupChar dquote s)
    have h2 := dupChar_count_other dquote squote squote_ne_dquote s
    rw [_htcondor_env_value]
    simp [List.count_append, List.count_cons, h1, h2]

/-- C1, evaluation at the failing input: a successful start stores a
non-empty identifier, but a stop whose control call fails with a generic
(non-invalid-job) error re-raises BEFORE the `self.job_id = None` line,
so the stored identifier is NOT cleared. -/
theorem stop_error_leaves_identifier :
    (_start_instance { job_id := none } (str "42")).1.job_id = some (str "42") ∧
    (stop_instance { job_id := some (str "42") } ControlOutcome.otherError).result
      = Except.error () ∧
    (stop_instance { job_id := some (str "42") } ControlOutcome.otherError).state.job_id
      = some (str "42") :=
  ⟨rfl, rfl, rfl⟩

/-- C2, evaluation at the failing input: stop with no job outstanding
succeeds at once without contacting the scheduler, but after a stop whose
control call failed with a generic error the identifier survives, so the
second stop contacts the scheduler again and raises again. -/
theorem double_stop_after_error_raises_again :
    (stop_instance { job_id := none } ControlOutcome.ok).contacted_scheduler = false ∧
    (stop_instance { job_id := none } ControlOutcome.ok).result = Except.ok () ∧
    (stop_instance
        (stop_instance { job_id := some (str "7") } ControlOutcome.otherError).state
        ControlOutcome.otherError).contacted_scheduler = true ∧
    (stop_instance
        (stop_instance { job_id := some (str "7") } ControlOutcome.otherError).state
        ControlOutcome.otherError).result = Except.error () :=
  ⟨rfl, rfl, rfl, rfl⟩

/-- C3: the stop path raises if and only if the termination control call
fails with an error other than the scheduler's invalid-job condition;
when the scheduler reports the identifier no longer valid, stop completes
successfully (and, from Running, clears the identifier). -/
theorem stop_raises_iff :
    (∀ o, _terminate_drmaa_job o = Except.error () ↔ o = ControlOutcome.otherError) ∧
    (∀ s o, (stop_instance s o).result = Except.error () ↔
      (s.job_id ≠ none ∧ o = ControlOutcome.otherError)) ∧
    (∀ s : DRMAAState, (stop_instance s ControlOutcome.invalidJob).result = Except.ok () ∧
      (stop_instance s ControlOutcome.invalidJob).state.job_id = none) := by
  refine ⟨?_, ?_, ?_⟩
  · intro o
    cases o <;> simp [_terminate_drmaa_job]
  · intro s o
    obtain ⟨jid⟩ := s
    cases jid <;> cases o <;>
      simp [stop_instance, _stop_instance, _terminate_drmaa_job]
  · intro s
    obtain ⟨jid⟩ := s
    cases jid <;>
      simp [stop_instance, _stop_instance, _terminate_drmaa_job]

theorem renderRO_last_suffix (l : List (Str × Str)) (k v : Str) :
    renderLine k v <:+ renderRO (l ++ [(k, v)]) := by
  induction l with
  | nil => simp [renderRO]
  | cons a as ih =>
    obtain ⟨k', v'⟩ := a
    rw [List.cons_append, renderRO]
    exact ih.trans (List.suffix_append _ _)

theorem renderRO_suffix_of_template (sn pw : Str) (mt : Nat) (kw : HTCondorKwargs) :
    renderRO (submit_description_ro sn pw mt) <:+ _setup_htcondor_template sn pw mt kw := by
  rw [_setup_htcondor_template]
  exact List.suffix_append _ _

theorem mem_renderRO_contained (l : List (Str × Str)) (kv : Str × Str)
    (h : kv ∈ l) : renderLine kv.1 kv.2 <:+: renderRO l := by
  induction l with
  | nil => cases h
  | cons a as ih =>
    obtain ⟨k', v'⟩ := a
    rcases List.mem_cons.mp h with h1 | h1
    · subst h1
      rw [renderRO]
      exact ⟨[], renderRO as, by simp⟩
    · exact (ih h1).trans (List.suffix_append _ _).isInfix

/-- C4: the liveness/removal (`periodic_remove`) expression uses the
clamped value `max 120 t` of the missing timeout, removes the job when
on hold (JobStatus == 5) or idle (JobStatus == 1) longer than the clamp
since submission, is emitted by every pool-variant render, and the
concrete instances: 30 clamps to 120, 500 stays 500. -/
theorem timeout_clamp :
    (∀ t, periodic_remove_expr t =
      str "(JobStatus == 5 || (JobStatus == 1 &&" ++ str "CurrentTime - QDate > "
        ++ str (toString (max 120 t)) ++ str "))") ∧
    (∀ sn pw kw t, renderLine (str "periodic_remove") (periodic_remove_expr t)
      <:+ _setup_htcondor_template sn pw t kw) ∧
    periodic_remove_expr 30 =
      str "(JobStatus == 5 || (JobStatus == 1 &&CurrentTime - QDate > 120))" ∧
    periodic_remove_expr 500 =
      str "(JobStatus == 5 || (JobStatus == 1 &&CurrentTime - QDate > 500))" := by
  refine ⟨?_, ?_, by decide, by decide⟩
  · intro t
    have hmax : (if t < 120 then 120 else t) = max 120 t := by
      rcases Nat.lt_or_ge t 120 with h | h
      · simp [h, Nat.max_eq_left (Nat.le_of_lt h)]
      · simp [Nat.not_lt.2 h, Nat.max_eq_right h]
    rw [periodic_remove_expr, hmax]
  · intro sn pw kw t
    have hsplit : submit_description_ro sn pw t =
        [ (str "arguments", sn),
          (str "+BuildslaveName", sn),
          (str "+JobDescription", sn),
          (str "environment", str "SLAVE_PASSWORD=" ++ _htcondor_env_value pw),
          (str "+BuildslaveJob", str "TRUE"),
          (str "+JobMaxVacateTime", str "60"),
          (str "getenv", str "TRUE"),
          (str "kill_sig", str "SIGHUP"),
          (str "want_graceful_removal", str "TRUE"),
          (str "transfer_executable", str "TRUE") ]
          ++ [(str "periodic_remove", periodic_remove_expr t)] := rfl
    have h1 : renderLine (str "periodic_remove") (periodic_remove_expr t)
        <:+ renderRO (submit_description_ro sn pw t) := by
      rw [hsplit]
      exact renderRO_last_suffix _ _ _
    exact h1.trans (renderRO_suffix_of_template sn pw t kw)

/-- C5: the pool-variant render is the overridable block, then the
extra-directives block, then the fixed block; the fixed block is a suffix
of every render, and every fixed directive's line occurs in every render,
whatever the overridable values and extra text. -/
theorem fixed_directives_always_last :
    (∀ sn pw mt kw, _setup_htcondor_template sn pw mt kw =
      renderRW (submit_description_rw kw) ++ extraBlock kw
        ++ renderRO (submit_description_ro sn pw mt)) ∧
    (∀ sn pw mt kw, renderRO (submit_description_ro sn pw mt)
      <:+ _setup_htcondor_template sn pw mt kw) ∧
    (∀ sn pw mt kw kv, kv ∈ submit_description_ro sn pw mt →
      renderLine kv.1 kv.2 <:+: _setup_htcondor_template sn pw mt kw) := by
  refine ⟨fun _ _ _ _ => rfl, renderRO_suffix_of_template, ?_⟩
  intro sn pw mt kw kv h
  exact (mem_renderRO_contained _ kv h).trans
    (renderRO_suffix_of_template sn pw mt kw).isInfix

set_option maxRecDepth 40000

/-- C6 counterexample: in the end-to-end scenario (missing-timeout 30,
cpu default, no accounting group) the rendered native specification does
NOT end with the environment-secret line: the fixed block's final entry —
and hence the render's suffix — is the `periodic_remove` line. -/
theorem scenario_not_ending_with_env_line :
    ¬ (scenario_env_line <:+ scenario_render) := by decide

/-- C6 as amended: every non-null overridable option is emitted as a
`key=value` line with the documented defaults, null-valued options appear
nowhere, the environment-secret line is contained in the render, and the
render ends with the fixed block, whose last line is the
`periodic_remove` line (not the environment-secret line). -/
theorem overridable_rendering :
    str "request_cpu=1\n" <:+: scenario_render ∧
    str "request_disk=2097152\n" <:+: scenario_render ∧
    str "request_memory=2048\n" <:+: scenario_render ∧
    ¬ (str "accounting_group=" <:+: scenario_render) ∧
    ¬ (str "request_buildslave=" <:+: scenario_render) ∧
    scenario_env_line <:+: scenario_render ∧
    renderLine (str "periodic_remove") (periodic_remove_expr 30) <:+ scenario_render := by
  refine ⟨by decide, by decide, by decide, by decide, by decide, by decide, by decide⟩

theorem grid_render_options_eq (opts : List (GridOption × Str)) :
    grid_render_options opts
      = (opts.map fun p => grid_option_token p.1 ++ str " " ++ p.2 ++ str " ").flatten := by
  induction opts with
  | nil => simp [grid_render_options]
  | cons p rest ih =>
    obtain ⟨o, v⟩ := p
    simp [grid_render_options, ih, List.append_assoc]

theorem grid_resource_string_acc (l : List (Str × Str)) :
    ∀ acc : Str, acc ≠ [] →
      grid_resource_string l acc
        = acc ++ (l.map fun p => str "," ++ p.1 ++ str "=" ++ p.2).flatten := by
  induction l with
  | nil =>
    intro acc _
    simp [grid_resource_string]
  | cons p rest ih =>
    intro acc hacc
    obtain ⟨n, v⟩ := p
    rw [grid_resource_string, if_neg hacc]
    rw [ih _ (by simp [List.append_eq_nil, hacc])]
    simp [List.append_assoc]

theorem grid_resource_string_nil_iff (res : List (Str × Str)) :
    grid_resource_string res [] = [] ↔ res = [] := by
  cases res with
  | nil => simp [grid_resource_string]
  | cons p rest =>
    obtain ⟨n, v⟩ := p
    have heq : str "=" ≠ ([] : Str) := by decide
    rw [grid_resource_string, if_pos rfl]
    rw [grid_resource_string_acc rest _ (by simp [List.append_eq_nil, heq])]
    simp [List.append_eq_nil, heq]

theorem joinWith_cons (sep : Str) (x : Str) (xs : List Str) :
    joinWith sep (x :: xs) = x ++ (xs.map fun y => sep ++ y).flatten := by
  induction xs generalizing x with
  | nil => simp [joinWith]
  | cons y ys ih =>
    rw [joinWith, ih y]
    simp [List.append_assoc]

/-- C8: the queue-variant render equals the spec-side algorithm (each
option as `<token> <value> `, then — iff at least one resource entry
exists — a `-l`-prefixed clause of `name=value` pairs joined by commas,
options first and the resource clause last), with the token mapping
queue→-q, name→-N, shell→-S, env→-v, the documented defaults, and the
concrete default render. -/
theorem queue_variant_rendering :
    (∀ opts res, grid_native_spec opts res = grid_native_spec_spec opts res) ∧
    (∀ res, grid_resource_string res [] = [] ↔ res = []) ∧
    (grid_option_token GridOption.queue = str "-q" ∧
     grid_option_token GridOption.name = str "-N" ∧
     grid_option_token GridOption.shell = str "-S" ∧
     grid_option_token GridOption.env = str "-v") ∧
    default_job_options
      = [(GridOption.queue, str "all.q"), (GridOption.name, str "BuildSlave")] ∧
    default_job_resources = [(str "arch", str "*")] ∧
    grid_native_spec default_job_options default_job_resources =
      str "-q all.q -N BuildSlave -l arch=*" := by
  refine ⟨?_, grid_resource_string_nil_iff, ⟨rfl, rfl, rfl, rfl⟩, rfl, rfl, by decide⟩
  intro opts res
  rw [grid_native_spec, grid_native_spec_spec, grid_render_options_eq]
  congr 1
  cases res with
  | nil => simp [grid_resource_string]
  | cons p rest =>
    obtain ⟨n, v⟩ := p
    have heq : str "=" ≠ ([] : Str) := by decide
    have h1 : grid_resource_string ((n, v) :: rest) [] ≠ [] := by
      rw [Ne, grid_resource_string_nil_iff]
      simp
    rw [if_neg h1, if_neg (by simp : ¬ ((n, v) :: rest = ([] : List (Str × Str))))]
    congr 1
    rw [grid_resource_string, if_pos rfl]
    rw [grid_resource_string_acc rest _ (by simp [List.append_eq_nil, heq])]
    rw [List.map_cons, joinWith_cons, List.map_map]
    simp [List.append_assoc, Function.comp_def]

/-- C9 counterexample: construct a pool-variant worker with
missing-timeout 30, change `missing_timeout` to 500 before the first
start; the specification submitted by that start is the construction-time
render (liveness expression using 120), not a fresh render from the
current option values (which would use 500). -/
theorem stale_pool_render :
    (({ HTCondorSlave.init (str "run.sh") (str "s1") (str "pw") 30 {} with
        missing_timeout := 500 }).start_instance (str "7")).2 ≠
      _setup_htcondor_template (str "s1") (str "pw") 500 {} := by decide

/-- C9 as amended: construction sets the template's `remoteCommand` to
the supplied start command and no start invocation changes it; the
queue variant derives the submitted `nativeSpecification` freshly from
the option values current at each start, but the pool variant renders it
once at construction time and every start submits that stored render
unchanged. -/
theorem builder_contract :
    (∀ cmd sn pw mt kw,
      (HTCondorSlave.init cmd sn pw mt kw).template_remoteCommand = cmd) ∧
    (∀ (s : HTCondorSlave) jid,
      ((s.start_instance jid).1).template_remoteCommand = s.template_remoteCommand) ∧
    (∀ (s : HTCondorSlave) jid,
      (s.start_instance jid).2 = s.template_nativeSpecification) ∧
    (∀ cmd sn pw mt kw,
      (HTCondorSlave.init cmd sn pw mt kw).template_nativeSpecification
        = _setup_htcondor_template sn pw mt kw) ∧
    (∀ cmd, (GridEngineSlave.init cmd).template_remoteCommand = cmd) ∧
    (∀ (g : GridEngineSlave) jid,
      ((g.start_instance jid).1).template_remoteCommand = g.template_remoteCommand) ∧
    (∀ (g : GridEngineSlave) jid,
      (g.start_instance jid).2 = grid_native_spec g.job_options g.job_resources) :=
  ⟨fun _ _ _ _ _ => rfl, fun _ _ => rfl, fun _ _ => rfl, fun _ _ _ _ _ => rfl,
   fun _ => rfl, fun _ _ => rfl, fun _ _ => rfl⟩

/-- C10 counterexample: a concrete interleaving of two threads running
the unsynchronized `_get_persistent_drmaa_session` body (thread 1 reads
the class attribute, thread 2 reads it, thread 1 creates and assigns,
thread 2 creates and assigns) creates TWO underlying connections even
though both threads complete. -/
theorem race_creates_two_sessions :
    (raceRun [true, false, true, false]).1.created = 2 ∧
    (raceRun [true, false, true, false]).2.1.finished = true ∧
    (raceRun [true, false, true, false]).2.2.finished = true := by decide

/-- C10 as amended: run without interleaving, the first
`_get_persistent_drmaa_session` call creates exactly one connection
(fresh or reattached) and stores the handle; every later call returns
that same handle and creates nothing; serialized threads (one finishes
both steps before the other reads) also create exactly one connection.
But the check-then-create is not synchronized, so concurrent first
callers can create more than one (see the counterexample). -/
theorem single_session :
    (∀ st h, st._drmaa_session = some h →
      _get_persistent_drmaa_session st = (st, h)) ∧
    (∀ st, st._drmaa_session = none →
      ((_get_persistent_drmaa_session st).1.created = st.created + 1 ∧
       (_get_persistent_drmaa_session st).1._drmaa_session
         = some (_get_persistent_drmaa_session st).2)) ∧
    (∀ st,
      (_get_persistent_drmaa_session
        (_get_persistent_drmaa_session st).1).1
        = (_get_persistent_drmaa_session st).1 ∧
      (_get_persistent_drmaa_session
        (_get_persistent_drmaa_session st).1).2
        = (_get_persistent_drmaa_session st).2) ∧
    (raceRun [true, true, false, false]).1.created = 1 := by
  refine ⟨?_, ?_, ?_, by decide⟩
  · intro st h hst
    simp [_get_persistent_drmaa_session, hst]
  · intro st hst
    simp [_get_persistent_drmaa_session, hst]
  · intro st
    obtain ⟨sess, contact, created⟩ := st
    cases sess <;> simp [_get_persistent_drmaa_session]
